import Mathlib

/-!
Shallow embedding of `src/multihash/multihash.py` (candeira/py-multihash).

Modelling conventions:
- Python byte strings are `List Int` whose elements are byte values 0..255.
- Python dynamic exceptions are the `PyError` type; a Python function that can
  raise is embedded as a function into `Except PyError _`.
- Python module-level dicts `NAMES`, `CODES`, `LENGTHS` are association lists.
- The source file contains several slips that matter semantically and are
  embedded faithfully:
  - `__raise_errors_if_invalid_buffer_length` tests `3 > len(buf) > 129`,
    a Python chained comparison meaning `3 > len(buf) and len(buf) > 129`,
    which is unsatisfiable, so the function never raises;
  - `__raise_errors_if_invalid_encoding_length` evaluates `LENGHTS[code]`
    on its second line; `LENGHTS` is an undefined name (the table is spelled
    `LENGTHS`), so the function unconditionally raises `NameError`, making
    every call to `encode` fail;
  - `decode` evaluates `name = CODES[code]` with plain indexing, which raises
    `KeyError` whenever `code` is not a registered key (in particular for all
    application-specific codes);
  - `__raise_errors_if_invalid_multihash_buffer` evaluates `LENGTHS(code)`,
    calling a dict, which unconditionally raises `TypeError` once the
    code-validity test has passed, so `decode` never returns normally.
- The call `__raise_errors_if_invalid_multihash_buffer(code, length, name digest)`
  in `decode` is missing a comma in the source; it is embedded as the only
  possible repair, the four-argument call `(code, length, name, digest)`.
- The module-level `FUNCS` table (digest computation) references `hashlib`
  and optional third-party hash providers; digest computation is outside the
  codec core and none of the claims touch it, so it is not embedded.
-/

/-- Python runtime exceptions that the embedded code paths can raise. -/
inductive PyError where
  | nameError (name : String)
  | keyError
  | typeError (msg : String)
  | indexError
  | valueError (msg : String)
  | assertionError
deriving DecidableEq, Repr

/-- A Python value, as far as the dynamically typed `is_app_code` /
`is_valid_code` need to distinguish. Integral numbers and strings carry their
value. A float carries its exact numeric value as a rational (every finite
IEEE float is a dyadic rational, and only numeric comparison against the
integer dict keys observes it; the non-finite floats compare unequal to every
key, like any non-integral rational, so they add no behavior). A list is
unhashable whatever its elements — dict membership raises `TypeError` on the
type alone — so the `pylist` constructor carries no payload. -/
inductive PyValue where
  | int (n : Int)
  | str (s : String)
  | float (q : ℚ)
  | pynone
  | pylist
deriving DecidableEq, Repr

/-- `isinstance(code, numbers.Integral)`, returning the integer value when the
check succeeds. -/
def py_integral? : PyValue → Option Int
  | PyValue.int n => some n
  | _ => none

-- Registered hash function codes (module-level constants in the source).

def SHA1 : Int := 0x11
def SHA2_256 : Int := 0x12
def SHA2_512 : Int := 0x13
def SHA3 : Int := 0x14
def BLAKE2B : Int := 0x40
def BLAKE2S : Int := 0x41

/-- `NAMES` maps the name of a hash to the code. -/
def NAMES : List (String × Int) :=
  [("sha1", SHA1), ("sha2-256", SHA2_256), ("sha2-512", SHA2_512),
   ("sha3", SHA3), ("blake2b", BLAKE2B), ("blake2s", BLAKE2S)]

/-- `CODES = dict((v, k) for k, v in NAMES.items())` maps each code to its name. -/
def CODES : List (Int × String) := NAMES.map (fun kv => (kv.2, kv.1))

/-- `LENGTHS` maps each hash code to its default digest length. -/
def LENGTHS : List (Int × Int) :=
  [(SHA1, 20), (SHA2_256, 32), (SHA2_512, 64),
   (SHA3, 64), (BLAKE2B, 64), (BLAKE2S, 32)]

/-- `is_app_code(code)`: true iff `code` is an integral number with
`code >= 0 and code < 0x10`; any non-integral input returns `False`. -/
def is_app_code (code : PyValue) : Bool :=
  match py_integral? code with
  | some n => decide (0 ≤ n ∧ n < 0x10)
  | none => false

/-- Python dict membership `v in d` for a dict whose keys are the given
integers: an `int` matches a key by equality; a `float` matches a key by
numeric equality (`17.0 in` an int-keyed dict is `True`); strings and `None`
are hashable but equal to no integer key; a list is unhashable and membership
raises `TypeError`. -/
def py_dict_mem_int_keys (v : PyValue) (keys : List Int) : Except PyError Bool :=
  match v with
  | PyValue.int n => Except.ok (decide (n ∈ keys))
  | PyValue.float q => Except.ok (decide (∃ k ∈ keys, (k : ℚ) = q))
  | PyValue.str _ => Except.ok false
  | PyValue.pynone => Except.ok false
  | PyValue.pylist => Except.error (PyError.typeError "unhashable type")

/-- `is_valid_code(code)`: `True` if `is_app_code(code)`, else `code in CODES`;
the dict membership can itself raise, so the embedding is `Except`-valued
(on integer arguments it never raises). -/
def is_valid_code (code : PyValue) : Except PyError Bool :=
  if is_app_code code then
    Except.ok true
  else
    py_dict_mem_int_keys code (CODES.map Prod.fst)

/-- `__raise_errors_if_invalid_buffer_length(buf)`: the source tests
`if 3 > len(buf) > 129`, the chained comparison
`3 > len(buf) and len(buf) > 129`, which no length satisfies. -/
def __raise_errors_if_invalid_buffer_length (buf : List Int) : Except PyError Unit :=
  if 3 > buf.length ∧ buf.length > 129 then
    Except.error (PyError.valueError "Illegal multihash value length")
  else
    Except.ok ()

/-- `__raise_errors_if_invalid_multihash_buffer(code, length, name, digest)`:
after the code-validity check, the source line `default = LENGTHS(code)` calls
a dict, raising `TypeError` unconditionally; every statement after it
(the `length != actual` check and the conventional-length check) is dead code. -/
def __raise_errors_if_invalid_multihash_buffer (code : Int) (length : Int)
    (name : String) (digest : List Int) : Except PyError Unit :=
  (is_valid_code (PyValue.int code)).bind (fun valid =>
  if ¬ valid then
    Except.error (PyError.valueError "Invalid multihash code")
  else
    Except.error (PyError.typeError "dict object is not callable"))

/-- `decode(buf)`: buffer-length check (a no-op, see above), then
`code, length, digest = buf[0], buf[1], buf[2:]` (raising `IndexError` when
the buffer is shorter than 2), then `name = CODES[code]` (raising `KeyError`
when the code is not registered), then the consistency check, then the
namedtuple `Multihash(code, length, name, digest)`. -/
def decode (buf : List Int) : Except PyError (Int × Int × String × List Int) :=
  (__raise_errors_if_invalid_buffer_length buf).bind (fun _ =>
  (match buf.get? 0 with
   | some c => Except.ok c
   | none => Except.error PyError.indexError).bind (fun code =>
  (match buf.get? 1 with
   | some l => Except.ok l
   | none => Except.error PyError.indexError).bind (fun length =>
  (match CODES.lookup code with
   | some n => Except.ok n
   | none => Except.error PyError.keyError).bind (fun name =>
  (__raise_errors_if_invalid_multihash_buffer code length name (buf.drop 2)).bind (fun _ =>
  Except.ok (code, length, name, buf.drop 2))))))

/-- `__raise_errors_if_invalid_encoding_length(digest, code, length)`:
the second statement `default = LENGHTS[code]` reads the undefined name
`LENGHTS` (the table is spelled `LENGTHS`), so the function raises
`NameError` for every input; everything after it — the `NAMES[code]` lookup,
the validity check, the digest-length check, the truncation-length check and
the final `1 > length > 127` range test (itself an unsatisfiable chained
comparison, evaluated after `length = actual` overwrote the parameter) —
is dead code. -/
def __raise_errors_if_invalid_encoding_length (digest : List Int) (code : Int)
    (length : Option Int) : Except PyError Unit :=
  Except.error (PyError.nameError "LENGHTS")

/-- Python truthiness of the optional `length` argument: `None` and `0` are
falsy, any other integer is truthy. -/
def py_truthy_len : Option Int → Bool
  | some l => l ≠ 0
  | none => false

/-- Python truthiness of the optional `name` argument: `None` and the empty
string are falsy. -/
def py_truthy_name : Option String → Bool
  | some s => s ≠ ""
  | none => false

/-- Python slice `xs[:k]` for an integer bound `k` (negative bounds count
from the end, clamped to the empty list). -/
def py_slice_to (k : Int) (xs : List Int) : List Int :=
  if 0 ≤ k then xs.take k.toNat
  else xs.take ((xs.length : Int) + k).toNat

/-- The body of `encode` after the validation call (source lines
`if name and not is_app_code(code): ...` through `return output`):
the optional-name assertion, `actual_length = length if length else
len(digest)`, `truncated_digest = digest[:length]`, and
`output = bytes([code, actual_length]) + truncated_digest`
(where `bytes` raises `ValueError` on a value outside 0..255).
Factored out so the construction the source would perform can be stated
separately from the validation that precedes it. -/
def encode_body (digest : List Int) (code : Int) (length : Option Int)
    (name : Option String) : Except PyError (List Int) :=
  (if py_truthy_name name ∧ ¬ is_app_code (PyValue.int code) then
     match CODES.lookup code with
     | some cname =>
         if name = some cname then Except.ok () else Except.error PyError.assertionError
     | none => Except.error PyError.keyError
   else Except.ok ()).bind (fun _ =>
  let actual_length : Int :=
    match length with
    | some l => if l ≠ 0 then l else (digest.length : Int)
    | none => (digest.length : Int)
  let truncated_digest : List Int :=
    match length with
    | some l => py_slice_to l digest
    | none => digest
  if 0 ≤ code ∧ code ≤ 255 ∧ 0 ≤ actual_length ∧ actual_length ≤ 255 then
    Except.ok (code :: actual_length :: truncated_digest)
  else
    Except.error (PyError.valueError "bytes must be in range"))

/-- `encode(digest, code, length=None, name=None)`: first
`__raise_errors_if_invalid_encoding_length(digest, code, length)`, then the
construction in `encode_body`. -/
def encode (digest : List Int) (code : Int) (length : Option Int)
    (name : Option String) : Except PyError (List Int) :=
  (__raise_errors_if_invalid_encoding_length digest code length).bind (fun _ =>
  encode_body digest code length name)

/-- The 20-byte sha1 digest used in the source docstrings. -/
def sha1_digest_example : List Int :=
  [0xf7, 0xff, 0x9e, 0x8b, 0x7b, 0xb2, 0xe0, 0x9b, 0x70, 0x93,
   0x5a, 0x5d, 0x78, 0x5e, 0x0c, 0xc5, 0xd9, 0xd0, 0xab, 0xf0]

/-- C1: the claimed round-trip never happens. `encode` of the docstring sha1
digest raises `NameError` (the misspelled `LENGHTS` in its validator), and
`decode` of the correctly formed container raises `TypeError` (the dict
`LENGTHS` called as a function in its validator), so
`decode(encode(digest, identifier))` cannot yield the claimed tuple. -/
theorem C1_roundtrip_code_bug :
    encode sha1_digest_example SHA1 none none
      = Except.error (PyError.nameError "LENGHTS")
    ∧ decode (SHA1 :: 20 :: sha1_digest_example)
      = Except.error (PyError.typeError "dict object is not callable") :=
  ⟨rfl, rfl⟩

set_option maxRecDepth 8192 in
/-- C2: the buffer-length guard never fires, because the source condition
`3 > len(buf) > 129` is an unsatisfiable chained comparison. The empty buffer
passes the guard and `decode` then fails with `IndexError` at `buf[0]`; a
2-byte buffer passes the guard; a 130-byte buffer passes the guard and
`decode` proceeds to fail later, on the unrelated `CODES[code]` `KeyError` —
never with the claimed `BufferLengthOutOfRange` error. -/
theorem C2_buffer_length_code_bug :
    __raise_errors_if_invalid_buffer_length [] = Except.ok ()
    ∧ decode [] = Except.error PyError.indexError
    ∧ __raise_errors_if_invalid_buffer_length [0x11, 0x00] = Except.ok ()
    ∧ __raise_errors_if_invalid_buffer_length (List.replicate 130 0) = Except.ok ()
    ∧ decode (0x05 :: 0x80 :: List.replicate 128 0) = Except.error PyError.keyError :=
  ⟨rfl, rfl, rfl, rfl, rfl⟩

/-- C3: application-specific identifiers do not work at all. `encode` with
identifier `0x05` raises `NameError` (misspelled `LENGHTS` in its validator),
and `decode` of a well-formed `0x05` container raises `KeyError`, because
`decode` looks the name up with plain `CODES[code]` indexing and `0x05` has no
`CODES` entry — it never returns a value with `canonical_name = None`. -/
theorem C3_app_specific_code_bug :
    encode (List.replicate 5 0xAA) 0x05 none none
      = Except.error (PyError.nameError "LENGHTS")
    ∧ decode (0x05 :: 5 :: List.replicate 5 0xAA) = Except.error PyError.keyError :=
  ⟨rfl, rfl⟩

/-- C4: `encode` with identifier `SHA1` and a 19-byte digest does fail, but
with `NameError` from the misspelled `LENGHTS`, not with the claimed
`DigestLengthMismatch`; and a correct 20-byte digest fails identically, so
the failure does not discriminate on digest length at all (the intended
length check is dead code behind the `NameError`). -/
theorem C4_digest_length_code_bug :
    encode (List.replicate 19 0x01) SHA1 none none
      = Except.error (PyError.nameError "LENGHTS")
    ∧ encode (List.replicate 20 0x01) SHA1 none none
      = Except.error (PyError.nameError "LENGHTS") :=
  ⟨rfl, rfl⟩

/-- C5: truncating encode never returns: `encode(sha1_digest, 0x11, length=10)`
raises `NameError` in its validator instead of producing
`0x11 0x0A ++ first 10 bytes`. The construction lines of `encode` alone
(`encode_body`) would produce exactly the claimed container, so the claim
matches the construction but the unconditional validator failure blocks it. -/
theorem C5_truncation_code_bug :
    encode sha1_digest_example SHA1 (some 10) none
      = Except.error (PyError.nameError "LENGHTS")
    ∧ encode_body sha1_digest_example SHA1 (some 10) none
      = Except.ok (SHA1 :: 10 :: sha1_digest_example.take 10) :=
  ⟨rfl, rfl⟩

/-- C7: a requested truncation length larger than the digest does fail, but
with `NameError` from the misspelled `LENGHTS`, not with the claimed
`RequestedLengthTooLarge`; the intended `length > actual` check is dead code,
and the construction lines alone (`encode_body`) would happily emit an
inconsistent container whose declared length exceeds its payload. -/
theorem C7_requested_too_large_code_bug :
    encode (List.replicate 5 0x01) 0x05 (some 10) none
      = Except.error (PyError.nameError "LENGHTS")
    ∧ encode_body (List.replicate 5 0x01) 0x05 (some 10) none
      = Except.ok (0x05 :: 10 :: List.replicate 5 0x01) :=
  ⟨rfl, rfl⟩

set_option maxRecDepth 8192 in
/-- C8: an effective length outside [1, 127] does fail, but with `NameError`
from the misspelled `LENGHTS`, not with the claimed `IllegalDigestLength`
(the in-source range test `1 > length > 127` is an unsatisfiable chained
comparison, and is evaluated only after `length = actual` discarded the
requested length anyway); the construction lines alone (`encode_body`) would
emit a container with declared length 128. -/
theorem C8_illegal_length_code_bug :
    encode (List.replicate 128 0x01) 0x05 none none
      = Except.error (PyError.nameError "LENGHTS")
    ∧ encode_body (List.replicate 128 0x01) 0x05 none none
      = Except.ok (0x05 :: 128 :: List.replicate 128 0x01) :=
  ⟨rfl, rfl⟩

/-- C9 counterexample: the classification predicates are not all total over
arbitrary inputs. On the unhashable list input (not an integral number),
`is_valid_code` raises `TypeError` — the `code in CODES` membership hashes its
key — rather than returning a Bool; and on the float `17.0` (also not
integral) it returns `True`, by numeric equality with the registered key
`0x11`. -/
theorem C9_totality_counterexample :
    py_integral? PyValue.pylist = none
    ∧ is_valid_code PyValue.pylist
        = Except.error (PyError.typeError "unhashable type")
    ∧ py_integral? (PyValue.float 17) = none
    ∧ is_valid_code (PyValue.float 17) = Except.ok true := by
  refine ⟨rfl, rfl, rfl, ?_⟩
  rfl

/-- C9 (amended): `is_app_code` itself is total over arbitrary Python values:
whenever the input is not an integral number
(`isinstance(code, numbers.Integral)` is false, i.e. `py_integral?` returns
`none`), it returns `False` without raising. -/
theorem C9_is_app_code_total (v : PyValue) (h : py_integral? v = none) :
    is_app_code v = false := by
  unfold is_app_code
  rw [h]

/-- Witness for the amended C9 at the concrete non-integral input `"sha1"`. -/
theorem C9_is_app_code_total_witness :
    py_integral? (PyValue.str "sha1") = none
    ∧ is_app_code (PyValue.str "sha1") = false :=
  ⟨rfl, C9_is_app_code_total (PyValue.str "sha1") rfl⟩

/-- C10: `encode` with `requested_length = 0` never returns the described
container: the validator raises `NameError` (misspelled `LENGHTS`) first. The
construction lines alone (`encode_body`) do behave exactly as the claim says:
`0` is falsy, so `actual_length = length if length else len(digest)` takes
`len(digest)` for the declared byte while `digest[:0]` empties the payload,
yielding `[0x05, 2]` for a 2-byte digest. -/
theorem C10_zero_length_code_bug :
    encode [0xAA, 0xBB] 0x05 (some 0) none
      = Except.error (PyError.nameError "LENGHTS")
    ∧ encode_body [0xAA, 0xBB] 0x05 (some 0) none = Except.ok [0x05, 2] :=
  ⟨rfl, rfl⟩

/-- C6: the classification predicate itself behaves as claimed —
`is_valid_code` accepts exactly the application-specific integers in [0, 16)
and the registered `CODES` keys, and `0x10` is invalid — but operations on the
invalid identifier `0x10` fail with `NameError` (`encode`, via the misspelled
`LENGHTS`) and `KeyError` (`decode`, via the unguarded `CODES[code]` lookup
that runs before the validity check), never with the claimed
`InvalidIdentifier` error. -/
theorem C6_identifier_validity_code_bug :
    (∀ n : Int, is_valid_code (PyValue.int n) = Except.ok true ↔
        ((0 ≤ n ∧ n < 16) ∨ n ∈ CODES.map Prod.fst))
    ∧ is_valid_code (PyValue.int 0x10) = Except.ok false
    ∧ encode [0x00] 0x10 none none = Except.error (PyError.nameError "LENGHTS")
    ∧ decode [0x10, 1, 0x00] = Except.error PyError.keyError := by
  refine ⟨?_, rfl, rfl, rfl⟩
  intro n
  simp only [is_valid_code, is_app_code, py_integral?, py_dict_mem_int_keys]
  by_cases h : 0 ≤ n ∧ n < 16
  · simp [h]
  · simp [h]
